import Mathlib

/-!
Verification development for the FOIS loco tracker.

The model shallowly embeds the two source files that the claims concern:

* `app/api/track-loco/route.ts` — the reconciliation engine: the `POST`
  handler, its helper `parsePopupMsg`, and the movement check against the
  stored history (`Fois` namespace below);
* `app/page.tsx` — the client-side tracking session (`fetchData`, the
  polling `useEffect`, `handleFormSubmit`), embedded as an explicit state
  machine driven by an event trace (`Fois.Session` below).

JavaScript numbers appearing in the route are modelled as `Option ℚ`:
`none` stands for `NaN` (the value `parseFloat` produces on malformed
input), `some q` for an ordinary finite value.  All comparisons with `NaN`
are `false`, as in JavaScript.
-/

namespace Fois

/-- A JavaScript number: `none` models `NaN`, `some q` a finite value.
(The source only ever produces `NaN` through `parseFloat`; ±Infinity never
arises and is not modelled.) -/
abbrev JsNum := Option ℚ

/-- JavaScript subtraction: any operation involving `NaN` yields `NaN`. -/
def jsSub : JsNum → JsNum → JsNum
  | some a, some b => some (a - b)
  | _, _ => none

/-- JavaScript `Math.abs`: `Math.abs(NaN) = NaN`. -/
def jsAbs : JsNum → JsNum
  | some a => some |a|
  | none => none

/-- JavaScript `x > t` for a possibly-`NaN` `x` against a plain constant
`t`: every comparison with `NaN` is `false`. -/
def jsGtNum : JsNum → ℚ → Bool
  | some a, t => decide (t < a)
  | none, _ => false

/-- Numeric value of a digit string (most significant digit first). -/
def digitsVal (cs : List Char) : ℕ :=
  cs.foldl (fun acc c => 10 * acc + (c.toNat - 48)) 0

/-- JavaScript `parseFloat` on a character list: skip leading whitespace,
optional sign, integer digits, optional `.` and fraction digits; `NaN`
(`none`) when no digit is found.  Exponent notation is not modelled — the
telemetry coordinate strings are plain decimals. -/
def parseFloatQ (cs : List Char) : JsNum :=
  let cs1 := cs.dropWhile fun c => c == ' ' || c == '\t' || c == '\n' || c == '\r'
  let signBody : ℚ × List Char :=
    match cs1 with
    | '-' :: t => (-1, t)
    | '+' :: t => (1, t)
    | _ => (1, cs1)
  let ds := signBody.2.takeWhile Char.isDigit
  let rest := signBody.2.dropWhile Char.isDigit
  let fs : List Char :=
    match rest with
    | '.' :: r => r.takeWhile Char.isDigit
    | _ => []
  if ds = [] ∧ fs = [] then none
  else some (signBody.1 * ((digitsVal ds : ℚ) + (digitsVal fs : ℚ) / (10 : ℚ) ^ fs.length))

/-- `parseFloat(x)` where `x` is a possibly-absent string field: an absent
(`undefined`) field stringifies to no numeric prefix, hence `NaN`. -/
def jsParseFloat : Option String → JsNum
  | none => none
  | some s => parseFloatQ s.toList

/-- Does `p` begin the list `l`? -/
def beginsWith : List Char → List Char → Bool
  | [], _ => true
  | _ :: _, [] => false
  | a :: p, b :: l => a == b && beginsWith p l

/-- The suffix of `l` after the first occurrence of the literal pattern
`p`, or `none` when `p` does not occur. -/
def dropAfterFirst (p : List Char) : List Char → Option (List Char)
  | [] => if beginsWith p [] then some [] else none
  | c :: t => if beginsWith p (c :: t) then some ((c :: t).drop p.length)
              else dropAfterFirst p t

/-- The segment of `l` before the first occurrence of the literal pattern
`p`, or `none` when `p` does not occur. -/
def takeBefore (p : List Char) : List Char → Option (List Char)
  | [] => if beginsWith p [] then some [] else none
  | c :: t => if beginsWith p (c :: t) then some []
              else (takeBefore p t).map (c :: ·)

/-- Does the literal pattern `p` occur anywhere in the list? -/
def occursB (p : List Char) : List Char → Bool
  | [] => beginsWith p []
  | c :: t => beginsWith p (c :: t) || occursB p t

/-- Capture of the lazy regex `pat(.*?)stop` against `html`: the text
between the first occurrence of the literal `pat` and the next occurrence
of the literal `stop` after it.  (The JavaScript `.` does not cross a
newline and the engine would retry at a later occurrence of `pat`; the
popup strings are single-line label/value fragments, where the two
semantics agree.) -/
def extract (html pat stop : String) : Option String :=
  match dropAfterFirst pat.toList html.toList with
  | none => none
  | some rest =>
    match takeBefore stop.toList rest with
    | none => none
    | some cap => some (String.mk cap)

/-- The free-text part of a telemetry point: `route.ts`'s
`Omit<TrackingData, 'lat' | 'lng'>`. -/
structure PopupInfo where
  station : String
  event : String
  speed : String
deriving DecidableEq

/-- `parsePopupMsg` (route.ts lines 20–29): each sub-field is matched
independently against its own pattern and falls back to `"N/A"`. -/
def parsePopupMsg (html : String) : PopupInfo :=
  let stationMatch := extract html "Station: <b>" "</b>"
  let eventMatch := extract html "Event: <b>" "</b>"
  let speedMatch := extract html "Speed: <b>" "</b>"
  { station := stationMatch.getD "N/A"
    event := eventMatch.getD "N/A"
    speed := speedMatch.getD "N/A" }

/-- `TrackingData` (route.ts lines 7–13); `lat`/`lng` are `JsNum` because
`parseFloat` can yield `NaN`. -/
structure TrackingData where
  lat : JsNum
  lng : JsNum
  station : String
  event : String
  speed : String
deriving DecidableEq

/-- A document returned by `LocoData.find` (models/LocoData.ts): the
free-text fields and `createdAt` may be missing on older documents, which
the route handles with `||` fallbacks; `createdAt` is modelled as the
already-formatted locale string. -/
structure StoredRecord where
  locoId : String
  lat : JsNum
  lng : JsNum
  station : Option String
  event : Option String
  speed : Option String
  createdAt : Option String
deriving DecidableEq

/-- An element of the returned `history` array (route.ts line 17). -/
structure HistoryPoint where
  lat : JsNum
  lng : JsNum
  timestamp : Option String
  station : String
  event : String
  speed : String
deriving DecidableEq

/-- One detail row of the FOIS response (`foisData.LocoDtls[i]`); each
field may be absent from the raw payload. -/
structure FoisDetails where
  Lttd : Option String
  Lgtd : Option String
  PopUpMsg : Option String
deriving DecidableEq

/-- The decoded FOIS response body. `LocoDtls` is `none` when the field is
absent (falsy), `some l` when it is an array — an empty array is truthy in
JavaScript, so it passes the 404 guard. -/
structure FoisData where
  RowCont : String
  LocoDtls : Option (List FoisDetails)
deriving DecidableEq

/-- The environment of one `POST` call: everything the handler observes
from the outside world.  `bodyLocoId` is the outcome of `request.json()`
together with its `locoId` field (`.error` = the await threw);
`fois` is the outcome of the FOIS fetch plus `response.json()`
(`.error` = network failure or non-ok status, which the code turns into a
thrown exception); `stored` is what `LocoData.find(...).sort(...)` returns;
`insertOk` says whether `LocoData.create` would succeed; `dbOk` whether
`dbConnect()` succeeds; `now` is `new Date().toLocaleString()`. -/
structure Env where
  bodyLocoId : Except String (Option String)
  fois : Except String FoisData
  stored : List StoredRecord
  insertOk : Bool
  dbOk : Bool
  now : String

/-- The handler's HTTP result: a 200 snapshot or an error status. -/
inductive ApiResult where
  | ok (current : TrackingData) (history : List HistoryPoint)
  | err (status : ℕ) (msg : String)
deriving DecidableEq

/-- HTTP status of an `ApiResult`. -/
def statusOf : ApiResult → ℕ
  | .ok _ _ => 200
  | .err s _ => s

/-- `COORDINATE_TOLERANCE` (route.ts line 71). -/
def coordinateTolerance : ℚ := 1 / 10000

/-- The movement check (route.ts lines 72–74): moved when there is no last
record, or either coordinate differs by strictly more than the tolerance.
`NaN` coordinates make both comparisons false. -/
def hasMovedB (lastPos : Option (JsNum × JsNum)) (curLat curLng : JsNum) : Bool :=
  match lastPos with
  | none => true
  | some (llat, llng) =>
    jsGtNum (jsAbs (jsSub llat curLat)) coordinateTolerance ||
    jsGtNum (jsAbs (jsSub llng curLng)) coordinateTolerance

/-- `currentData` (route.ts lines 52–56). -/
def mkCurrentData (d : FoisDetails) (popup : String) : TrackingData :=
  let parsedInfo := parsePopupMsg popup
  { lat := jsParseFloat d.Lttd
    lng := jsParseFloat d.Lgtd
    station := parsedInfo.station
    event := parsedInfo.event
    speed := parsedInfo.speed }

/-- The document written by `LocoData.create` (route.ts lines 82–85) with
`timestamps: true` stamping `createdAt` with the current time. -/
def newStored (lid : String) (cd : TrackingData) (now : String) : StoredRecord :=
  { locoId := lid, lat := cd.lat, lng := cd.lng
    station := some cd.station, event := some cd.event, speed := some cd.speed
    createdAt := some now }

/-- JavaScript `x || d` for a possibly-absent string `x`: the fallback is
used when `x` is `undefined` or the empty string (both falsy). -/
def jsOrStr : Option String → String → String
  | none, d => d
  | some s, d => if s == "" then d else s

/-- The `historyRecords.map` body (route.ts lines 95–113). -/
def mapStored (rec : StoredRecord) : HistoryPoint :=
  { lat := rec.lat, lng := rec.lng, timestamp := rec.createdAt
    station := jsOrStr rec.station "Historical Position"
    event := jsOrStr rec.event "N/A"
    speed := jsOrStr rec.speed "N/A" }

/-- The object pushed for the current position (route.ts lines 117–124 and
127–134 — both sites build the same object). -/
def currentPoint (cd : TrackingData) (now : String) : HistoryPoint :=
  { lat := cd.lat, lng := cd.lng, timestamp := some now
    station := cd.station, event := cd.event, speed := cd.speed }

/-- Steps 3–5 of the handler (route.ts lines 67–135): movement check,
guarded insert, and construction of the final history.  Returns the
response history together with the store contents after the call. -/
def buildSnapshot (lid : String) (cd : TrackingData) (stored : List StoredRecord)
    (insertOk : Bool) (now : String) : List HistoryPoint × List StoredRecord :=
  let lastRecord := stored.getLast?
  let hasMoved := hasMovedB (lastRecord.map fun r => (r.lat, r.lng)) cd.lat cd.lng
  let newRecordSaved := hasMoved && insertOk
  let storeAfter := if newRecordSaved then stored ++ [newStored lid cd now] else stored
  let mapped := stored.map mapStored
  let finalHistory :=
    if hasMoved && newRecordSaved then mapped ++ [currentPoint cd now]
    else if !hasMoved && mapped.length == 0 then mapped ++ [currentPoint cd now]
    else mapped
  (finalHistory, storeAfter)

/-- The `POST` handler (route.ts lines 31–152) as a function of its
environment, returning the HTTP result and the store contents after the
call.  Thrown exceptions caught by the outer `try` surface as status 500;
`LocoDtls = some []` reaches `LocoDtls[0].PopUpMsg` on `undefined` and
throws, as does a missing `PopUpMsg` inside `parsePopupMsg`'s
`html.match`. -/
def handlePost (env : Env) : ApiResult × List StoredRecord :=
  match env.bodyLocoId with
  | .error e => (.err 500 e, env.stored)
  | .ok none => (.err 400 "Loco ID is required", env.stored)
  | .ok (some lid) =>
    if lid == "" then (.err 400 "Loco ID is required", env.stored)
    else
      match env.fois with
      | .error e => (.err 500 e, env.stored)
      | .ok foisData =>
        if foisData.RowCont == "0" then
          (.err 404 "Loco not found or no data available.", env.stored)
        else
          match foisData.LocoDtls with
          | none => (.err 404 "Loco not found or no data available.", env.stored)
          | some [] => (.err 500 "TypeError", env.stored)
          | some (d :: _) =>
            match d.PopUpMsg with
            | none => (.err 500 "TypeError", env.stored)
            | some popup =>
              if env.dbOk then
                let cd := mkCurrentData d popup
                let snap := buildSnapshot lid cd env.stored env.insertOk env.now
                (.ok cd snap.1, snap.2)
              else (.err 500 "dbConnect failed", env.stored)

namespace Session

/-- The client-side session state of `app/page.tsx`: the React state
hooks (lines 14–19), the interval ref (line 21), and the set of
`fetchData` calls currently awaiting their response.  `intervalCapt` is
`none` when no interval is installed and `some c` when an interval is
installed whose `() => fetchData(locoId)` closure captured `isTracking`
value `c` at the render that ran the effect; each pending fetch likewise
records the `isTracking` value its closure captured. -/
structure SessionState where
  currentData : Option TrackingData
  historyData : List HistoryPoint
  isTracking : Bool
  isLoading : Bool
  error : Option String
  intervalCapt : Option Bool
  pending : List Bool
deriving DecidableEq

/-- The session state before any interaction. -/
def initState : SessionState :=
  { currentData := none, historyData := [], isTracking := false
    isLoading := false, error := none, intervalCapt := none, pending := [] }

/-- Outcome of one `/api/track-loco` round trip as seen by `fetchData`:
either the decoded snapshot or the message of the error it throws
(non-ok status, `error` field, or network failure). -/
inductive FetchOutcome where
  | success (current : TrackingData) (history : List HistoryPoint)
  | failure (msg : String)

/-- The synchronous part of `fetchData` (page.tsx lines 23–34): set
loading when the captured `isTracking` is false, clear the error, and
issue the request.  `capt` is the `isTracking` value the closure sees. -/
def fetchStart (s : SessionState) (capt : Bool) : SessionState :=
  { s with isLoading := if capt then s.isLoading else true
           error := none
           pending := s.pending ++ [capt] }

/-- The continuation of `fetchData` once the response arrives (page.tsx
lines 35–53), for the `i`-th pending call: on success it unconditionally
stores `current` and `history` and, when the captured `isTracking` was
false, turns tracking on; on failure it records the error and stops
tracking; either way `isLoading` is cleared by the `finally`. -/
def fetchResolve (s : SessionState) (i : ℕ) (out : FetchOutcome) : SessionState :=
  match s.pending.get? i with
  | none => s
  | some capt =>
    let s' := { s with pending := s.pending.eraseIdx i }
    match out with
    | .success cur hist =>
      { s' with currentData := some cur
                historyData := hist
                isTracking := if capt then s'.isTracking else true
                isLoading := false }
    | .failure msg =>
      { s' with error := some msg, isTracking := false, isLoading := false }

/-- `handleFormSubmit` (page.tsx lines 75–86): while tracking the button
stops (only flips the flag — any in-flight fetch is untouched); otherwise
it clears the data and starts a fetch whose closure captured the current
(false) `isTracking`. -/
def handleFormSubmit (s : SessionState) : SessionState :=
  if s.isTracking then { s with isTracking := false }
  else fetchStart { s with currentData := none, historyData := [] } s.isTracking

/-- The polling `useEffect` body plus its cleanup (page.tsx lines 57–73),
which React runs after a render whose `isTracking` or `locoId` changed:
any previous interval is cleared, and a fresh interval capturing the
current `isTracking` is installed when tracking. -/
def pollingEffect (s : SessionState) : SessionState :=
  if s.isTracking then { s with intervalCapt := some s.isTracking }
  else { s with intervalCapt := none }

/-- An installed interval fires: it calls `fetchData(locoId)` through the
closure created when the effect ran (page.tsx line 60).  Without an
installed interval nothing happens. -/
def tickFire (s : SessionState) : SessionState :=
  match s.intervalCapt with
  | none => s
  | some capt => fetchStart s capt

/-- The observable events of one session, in the order the browser's event
loop delivers them. -/
inductive Ev where
  | submit
  | effect
  | tick
  | resolve (i : ℕ) (out : FetchOutcome)

/-- One event-loop step of the session. -/
def step (s : SessionState) : Ev → SessionState
  | .submit => handleFormSubmit s
  | .effect => pollingEffect s
  | .tick => tickFire s
  | .resolve i out => fetchResolve s i out

/-- Run a trace of events from a state. -/
def runEvents (s : SessionState) (evs : List Ev) : SessionState :=
  evs.foldl step s

end Session

/-- Does a call on this environment reach the snapshot-building code
(route.ts lines 62–145)?  Mirrors the guard cascade of `handlePost`;
note it reads only `bodyLocoId`, `fois` and `dbOk`, never the store. -/
def snapshotPath (env : Env) : Bool :=
  match env.bodyLocoId with
  | .error _ => false
  | .ok none => false
  | .ok (some lid) =>
    if lid == "" then false
    else
      match env.fois with
      | .error _ => false
      | .ok fd =>
        if fd.RowCont == "0" then false
        else
          match fd.LocoDtls with
          | none => false
          | some [] => false
          | some (d :: _) =>
            match d.PopUpMsg with
            | none => false
            | some _ => env.dbOk

/-! ### Concrete fixtures used by counterexamples and witnesses -/

/-- A well-formed popup annotation with all three labelled segments. -/
def goodPopup : String := "Station: <b>NDLS</b> Event: <b>Run</b> Speed: <b>50</b>"

/-- A well-formed FOIS detail row at (28.61, 77.20). -/
def goodDtl : FoisDetails :=
  { Lttd := some "28.61", Lgtd := some "77.20", PopUpMsg := some goodPopup }

/-- A FOIS response with one detail row. -/
def goodFois : FoisData := { RowCont := "1", LocoDtls := some [goodDtl] }

/-- A baseline environment: valid id, good telemetry, empty store, a
store that accepts inserts. -/
def baseEnv : Env :=
  { bodyLocoId := .ok (some "37875"), fois := .ok goodFois
    stored := [], insertOk := true, dbOk := true, now := "t1" }

/-- The telemetry point `goodDtl` parses to. -/
def curGood : TrackingData :=
  { lat := some (2861 / 100), lng := some (386 / 5)
    station := "NDLS", event := "Run", speed := "50" }

/-- A stored record far (beyond the tolerance) from `curGood`. -/
def farRecord : StoredRecord :=
  { locoId := "37875", lat := some 28, lng := some 77
    station := some "OLD", event := some "Run", speed := some "10"
    createdAt := some "t0" }

/-- A stored record at exactly the coordinates of `curGood`. -/
def sameRecord : StoredRecord :=
  { locoId := "37875", lat := some (2861 / 100), lng := some (386 / 5)
    station := some "NDLS", event := some "Run", speed := some "50"
    createdAt := some "t0" }

/-- A detail row whose latitude string is non-numeric and whose longitude
field is absent: `parseFloat` gives `NaN` for both. -/
def nanDtl : FoisDetails :=
  { Lttd := some "abc", Lgtd := none, PopUpMsg := some "Station: <b>NDLS</b>" }

/-- A FOIS response around `nanDtl`. -/
def nanFois : FoisData := { RowCont := "1", LocoDtls := some [nanDtl] }

/-- The telemetry point `nanDtl` parses to: `NaN` coordinates. -/
def cdNaN : TrackingData :=
  { lat := none, lng := none, station := "NDLS", event := "N/A", speed := "N/A" }

/-- A second call on the store state `handlePost baseEnv` leaves behind,
with identical source telemetry. -/
def envSecond : Env :=
  { baseEnv with stored := [newStored "37875" curGood "t1"], now := "t2" }

/-- Two distinct telemetry points for the session counterexample. -/
def td1 : TrackingData :=
  { lat := some 1, lng := some 1, station := "A", event := "Run", speed := "10" }

/-- See `td1`. -/
def td2 : TrackingData :=
  { lat := some 2, lng := some 2, station := "B", event := "Run", speed := "20" }

/-- Session trace: start tracking, first poll succeeds, the polling
effect installs the interval, a tick starts a poll, and the user presses
stop while that poll is still in flight. -/
def stopTrace : List Session.Ev :=
  [Session.Ev.submit, Session.Ev.resolve 0 (Session.FetchOutcome.success td1 []),
   Session.Ev.effect, Session.Ev.tick, Session.Ev.submit]

/-- A session state that is actively tracking with one poll in flight. -/
def trackingState : Session.SessionState :=
  { Session.initState with isTracking := true, pending := [true], currentData := some td1 }

/-! ### Supporting lemmas -/

/-- Subtracting a JS number from itself never exceeds the tolerance
(`NaN` compares false; a finite value gives `|0| = 0`). -/
lemma jsGt_sub_self (x : JsNum) :
    jsGtNum (jsAbs (jsSub x x)) coordinateTolerance = false := by
  cases x with
  | none => rfl
  | some a =>
    simp only [jsSub, jsAbs, jsGtNum, coordinateTolerance, sub_self, abs_zero,
      decide_eq_false_iff_not, not_lt]
    norm_num

/-- The movement check is false when the last position equals the current
one componentwise. -/
lemma hasMovedB_refl (x y : JsNum) : hasMovedB (some (x, y)) x y = false := by
  simp [hasMovedB, jsGt_sub_self]

/-- `buildSnapshot` on an empty stored history: the detector fires (no
last record), so everything hinges on the insert. -/
lemma buildSnapshot_nil (lid : String) (cd : TrackingData) (ins : Bool) (now : String) :
    buildSnapshot lid cd [] ins now =
      (if ins then ([currentPoint cd now], [newStored lid cd now]) else ([], [])) := by
  cases ins <;> simp [buildSnapshot, hasMovedB]

/-- `buildSnapshot` when movement is detected and the insert succeeds. -/
lemma buildSnapshot_moved_ins (lid : String) (cd : TrackingData)
    (stored : List StoredRecord) (now : String)
    (h : hasMovedB ((stored.getLast?).map fun r => (r.lat, r.lng)) cd.lat cd.lng = true) :
    buildSnapshot lid cd stored true now =
      (stored.map mapStored ++ [currentPoint cd now], stored ++ [newStored lid cd now]) := by
  simp [buildSnapshot, h]

/-- `buildSnapshot` when movement is detected but the insert fails: the
current point is appended nowhere and the store is unchanged. -/
lemma buildSnapshot_moved_noins (lid : String) (cd : TrackingData)
    (stored : List StoredRecord) (now : String)
    (h : hasMovedB ((stored.getLast?).map fun r => (r.lat, r.lng)) cd.lat cd.lng = true) :
    buildSnapshot lid cd stored false now = (stored.map mapStored, stored) := by
  simp [buildSnapshot, h]

/-- `buildSnapshot` when no movement is detected (which forces the stored
history to be non-empty): the history is exactly the mapped stored trail
and the store is unchanged. -/
lemma buildSnapshot_notMoved (lid : String) (cd : TrackingData)
    (stored : List StoredRecord) (ins : Bool) (now : String)
    (h : hasMovedB ((stored.getLast?).map fun r => (r.lat, r.lng)) cd.lat cd.lng = false) :
    buildSnapshot lid cd stored ins now = (stored.map mapStored, stored) := by
  have hne : stored ≠ [] := by
    intro hnil
    subst hnil
    simp [hasMovedB] at h
  have hlen : ((stored.map mapStored).length == 0) = false := by
    simp [List.length_eq_zero, hne]
  simp [buildSnapshot, h, hlen, hne]

/-- Inversion of a successful `handlePost` call: a 200 snapshot pins down
every guard on the way to `buildSnapshot`. -/
lemma handlePost_ok_inv (env : Env) (cur : TrackingData) (hist : List HistoryPoint)
    (h : (handlePost env).1 = ApiResult.ok cur hist) :
    ∃ lid fd d rest popup,
      env.bodyLocoId = Except.ok (some lid) ∧ (lid == "") = false ∧
      env.fois = Except.ok fd ∧ (fd.RowCont == "0") = false ∧
      fd.LocoDtls = some (d :: rest) ∧ d.PopUpMsg = some popup ∧
      env.dbOk = true ∧ cur = mkCurrentData d popup ∧
      hist = (buildSnapshot lid cur env.stored env.insertOk env.now).1 ∧
      (handlePost env).2 = (buildSnapshot lid cur env.stored env.insertOk env.now).2 := by
  obtain ⟨body, fois, stored, ins, db, now⟩ := env
  cases body with
  | error e => simp [handlePost] at h
  | ok o =>
    cases o with
    | none => simp [handlePost] at h
    | some lid =>
      rcases hl : (lid == "") with _ | _
      · cases fois with
        | error e => simp [handlePost, hl] at h
        | ok fd =>
          rcases hr : (fd.RowCont == "0") with _ | _
          · cases hdt : fd.LocoDtls with
            | none => simp [handlePost, hl, hr, hdt] at h
            | some dtls =>
              cases dtls with
              | nil => simp [handlePost, hl, hr, hdt] at h
              | cons d rest =>
                cases hpm : d.PopUpMsg with
                | none => simp [handlePost, hl, hr, hdt, hpm] at h
                | some popup =>
                  cases db with
                  | false => simp [handlePost, hl, hr, hdt, hpm] at h
                  | true =>
                    simp only [handlePost, hl, hr, hdt, hpm, Bool.false_eq_true,
                      if_false, if_true] at h
                    obtain ⟨hcur, hhist⟩ := ApiResult.ok.inj h
                    subst hcur
                    exact ⟨lid, fd, d, rest, popup, rfl, hl, rfl, hr, hdt, hpm, rfl,
                      rfl, hhist.symm, by simp [handlePost, hl, hr, hdt, hpm]⟩
          · simp [handlePost, hl, hr] at h
      · simp [handlePost, hl] at h

/-- Forward evaluation of `handlePost` on the snapshot path. -/
lemma handlePost_ok_fwd (env : Env) (lid : String) (fd : FoisData) (d : FoisDetails)
    (rest : List FoisDetails) (popup : String)
    (hb : env.bodyLocoId = Except.ok (some lid)) (hl : (lid == "") = false)
    (hf : env.fois = Except.ok fd) (hr : (fd.RowCont == "0") = false)
    (hdt : fd.LocoDtls = some (d :: rest)) (hpm : d.PopUpMsg = some popup)
    (hdb : env.dbOk = true) :
    handlePost env =
      (ApiResult.ok (mkCurrentData d popup)
        (buildSnapshot lid (mkCurrentData d popup) env.stored env.insertOk env.now).1,
       (buildSnapshot lid (mkCurrentData d popup) env.stored env.insertOk env.now).2) := by
  simp [handlePost, hb, hf, hdt, hpm, hdb, hl, hr]

/-- `snapshotPath` reads only the request body, the FOIS outcome and the
database connectivity — never the store contents. -/
lemma snapshotPath_congr (env env' : Env)
    (hb : env'.bodyLocoId = env.bodyLocoId) (hf : env'.fois = env.fois)
    (hdb : env'.dbOk = env.dbOk) :
    snapshotPath env' = snapshotPath env := by
  simp [snapshotPath, hb, hf, hdb]

/-- Off the snapshot path the handler returns early with the store
untouched. -/
lemma not_snapshotPath_store (env : Env) (h : snapshotPath env = false) :
    (handlePost env).2 = env.stored := by
  obtain ⟨body, fois, stored, ins, db, now⟩ := env
  cases body with
  | error e => simp [handlePost]
  | ok o =>
    cases o with
    | none => simp [handlePost]
    | some lid =>
      rcases hl : (lid == "") with _ | _
      · cases fois with
        | error e => simp [handlePost, hl]
        | ok fd =>
          rcases hr : (fd.RowCont == "0") with _ | _
          · cases hdt : fd.LocoDtls with
            | none => simp [handlePost, hl, hr, hdt]
            | some dtls =>
              cases dtls with
              | nil => simp [handlePost, hl, hr, hdt]
              | cons d rest =>
                cases hpm : d.PopUpMsg with
                | none => simp [handlePost, hl, hr, hdt, hpm]
                | some popup =>
                  cases db with
                  | false => simp [handlePost, hl, hr, hdt, hpm]
                  | true => simp [snapshotPath, hl, hr, hdt, hpm] at h
          · simp [handlePost, hl, hr]
      · simp [handlePost, hl]

/-- On the snapshot path all guards can be named. -/
lemma snapshotPath_shape (env : Env) (h : snapshotPath env = true) :
    ∃ lid fd d rest popup,
      env.bodyLocoId = Except.ok (some lid) ∧ (lid == "") = false ∧
      env.fois = Except.ok fd ∧ (fd.RowCont == "0") = false ∧
      fd.LocoDtls = some (d :: rest) ∧ d.PopUpMsg = some popup ∧ env.dbOk = true := by
  obtain ⟨body, fois, stored, ins, db, now⟩ := env
  cases body with
  | error e => simp [snapshotPath] at h
  | ok o =>
    cases o with
    | none => simp [snapshotPath] at h
    | some lid =>
      rcases hl : (lid == "") with _ | _
      · cases fois with
        | error e => simp [snapshotPath, hl] at h
        | ok fd =>
          rcases hr : (fd.RowCont == "0") with _ | _
          · cases hdt : fd.LocoDtls with
            | none => simp [snapshotPath, hl, hr, hdt] at h
            | some dtls =>
              cases dtls with
              | nil => simp [snapshotPath, hl, hr, hdt] at h
              | cons d rest =>
                cases hpm : d.PopUpMsg with
                | none => simp [snapshotPath, hl, hr, hdt, hpm] at h
                | some popup =>
                  cases db with
                  | false => simp [snapshotPath, hl, hr, hdt, hpm] at h
                  | true =>
                    exact ⟨lid, fd, d, rest, popup, rfl, hl, rfl, hr, hdt, hpm, rfl⟩
          · simp [snapshotPath, hl, hr] at h
      · simp [snapshotPath, hl] at h

/-- The store after a call: unchanged, or extended by exactly the one
record the guarded `create` wrote. -/
lemma handlePost_store_cases (env : Env) :
    (handlePost env).2 = env.stored ∨
    ∃ lid cd, (handlePost env).2 = env.stored ++ [newStored lid cd env.now] := by
  rcases hsp : snapshotPath env with _ | _
  · exact Or.inl (not_snapshotPath_store env hsp)
  · obtain ⟨lid, fd, d, rest, popup, hb, hl, hf, hr, hdt, hpm, hdb⟩ :=
      snapshotPath_shape env hsp
    have hfwd := handlePost_ok_fwd env lid fd d rest popup hb hl hf hr hdt hpm hdb
    rcases hmv : hasMovedB ((env.stored.getLast?).map fun r => (r.lat, r.lng))
        (mkCurrentData d popup).lat (mkCurrentData d popup).lng with _ | _
    · rw [hfwd, buildSnapshot_notMoved _ _ _ _ _ hmv]
      exact Or.inl rfl
    · cases hins : env.insertOk with
      | false =>
        rw [hfwd, hins, buildSnapshot_moved_noins _ _ _ _ hmv]
        exact Or.inl rfl
      | true =>
        rw [hfwd, hins, buildSnapshot_moved_ins _ _ _ _ hmv]
        exact Or.inr ⟨lid, mkCurrentData d popup, rfl⟩

/-- When the pattern does not occur, `dropAfterFirst` finds nothing. -/
lemma dropAfterFirst_eq_none (p l : List Char) (h : occursB p l = false) :
    dropAfterFirst p l = none := by
  induction l with
  | nil =>
    simp only [occursB] at h
    simp [dropAfterFirst, h]
  | cons c t ih =>
    simp only [occursB, Bool.or_eq_false_iff] at h
    simp [dropAfterFirst, h.1, ih h.2]

/-- When the opening pattern does not occur in the text, the extraction
fails. -/
lemma extract_eq_none (html pat stop : String)
    (h : occursB pat.toList html.toList = false) :
    extract html pat stop = none := by
  have h' := dropAfterFirst_eq_none _ _ h
  simp only [String.toList] at h'
  simp [extract, h']

/-! ### Concrete evaluation lemmas

Rational arithmetic does not reduce definitionally (its operations
normalise through `Nat.gcd`), so concrete runs of the handler are
evaluated in two stages: a `rfl` step reduces all string and list
processing to a symbolic rational expression, and `norm_num` settles the
arithmetic. -/

/-- `parseFloat` on the latitude string of `goodDtl`. -/
lemma jsParseFloat_lat : jsParseFloat (some "28.61") = some ((2861 : ℚ) / 100) := by
  have h : jsParseFloat (some "28.61")
      = some ((1 : ℚ) * (((28 : ℕ) : ℚ) + ((61 : ℕ) : ℚ) / (10 : ℚ) ^ (2 : ℕ))) := rfl
  rw [h]
  norm_num

/-- `parseFloat` on the longitude string of `goodDtl`. -/
lemma jsParseFloat_lng : jsParseFloat (some "77.20") = some ((386 : ℚ) / 5) := by
  have h : jsParseFloat (some "77.20")
      = some ((1 : ℚ) * (((77 : ℕ) : ℚ) + ((20 : ℕ) : ℚ) / (10 : ℚ) ^ (2 : ℕ))) := rfl
  rw [h]
  norm_num

/-- The parsed current point of the baseline telemetry. -/
lemma mkCurrentData_good : mkCurrentData goodDtl goodPopup = curGood := by
  have hpop : parsePopupMsg goodPopup = ⟨"NDLS", "Run", "50"⟩ := by decide
  simp only [mkCurrentData, hpop]
  rw [show goodDtl.Lttd = some "28.61" from rfl, show goodDtl.Lgtd = some "77.20" from rfl,
    jsParseFloat_lat, jsParseFloat_lng]
  rfl

/-- `farRecord` is beyond the tolerance from `curGood`: movement. -/
lemma moved_far :
    hasMovedB (some (farRecord.lat, farRecord.lng)) curGood.lat curGood.lng = true := by
  show hasMovedB (some (some 28, some 77)) (some ((2861 : ℚ) / 100)) (some ((386 : ℚ) / 5))
      = true
  simp only [hasMovedB, jsSub, jsAbs, jsGtNum]
  have h1 : (28 : ℚ) - 2861 / 100 = -(61 / 100) := by norm_num
  rw [h1, abs_neg, abs_of_nonneg (by norm_num : (0 : ℚ) ≤ 61 / 100), Bool.or_eq_true,
    decide_eq_true_eq]
  left
  norm_num [coordinateTolerance]

/-- `sameRecord` sits exactly at `curGood`: no movement. -/
lemma notMoved_same :
    hasMovedB (some (sameRecord.lat, sameRecord.lng)) curGood.lat curGood.lng = false :=
  hasMovedB_refl _ _

/-- Full run on the baseline environment: empty store, insert succeeds. -/
lemma handlePost_base :
    handlePost baseEnv
      = (ApiResult.ok curGood [currentPoint curGood "t1"], [newStored "37875" curGood "t1"]) := by
  have hfwd := handlePost_ok_fwd baseEnv "37875" goodFois goodDtl [] goodPopup
    rfl (by decide) rfl (by decide) rfl rfl rfl
  rw [hfwd, mkCurrentData_good, show baseEnv.stored = [] from rfl,
    show baseEnv.insertOk = true from rfl, show baseEnv.now = "t1" from rfl, buildSnapshot_nil]
  rfl

/-- Full run with an empty store and a failing insert: the returned
history is empty. -/
lemma handlePost_base_noins :
    handlePost { baseEnv with insertOk := false } = (ApiResult.ok curGood [], []) := by
  have hfwd := handlePost_ok_fwd { baseEnv with insertOk := false } "37875" goodFois goodDtl []
    goodPopup rfl (by decide) rfl (by decide) rfl rfl rfl
  rw [hfwd, mkCurrentData_good,
    show ({ baseEnv with insertOk := false } : Env).stored = [] from rfl,
    show ({ baseEnv with insertOk := false } : Env).insertOk = false from rfl,
    show ({ baseEnv with insertOk := false } : Env).now = "t1" from rfl, buildSnapshot_nil]
  rfl

/-- Full run with a far-away stored record and a failing insert. -/
lemma handlePost_far_noins :
    handlePost { baseEnv with stored := [farRecord], insertOk := false }
      = (ApiResult.ok curGood [mapStored farRecord], [farRecord]) := by
  have hfwd := handlePost_ok_fwd { baseEnv with stored := [farRecord], insertOk := false }
    "37875" goodFois goodDtl [] goodPopup rfl (by decide) rfl (by decide) rfl rfl rfl
  have hmv : hasMovedB ((([farRecord].getLast?).map fun r => (r.lat, r.lng)))
      curGood.lat curGood.lng = true := by
    rw [show [farRecord].getLast? = some farRecord from rfl]
    exact moved_far
  rw [hfwd, mkCurrentData_good,
    show ({ baseEnv with stored := [farRecord], insertOk := false } : Env).stored
      = [farRecord] from rfl,
    show ({ baseEnv with stored := [farRecord], insertOk := false } : Env).insertOk
      = false from rfl,
    show ({ baseEnv with stored := [farRecord], insertOk := false } : Env).now = "t1" from rfl,
    buildSnapshot_moved_noins _ _ _ _ hmv]
  rfl

/-- Full run with a stored record exactly at the current position. -/
lemma handlePost_same :
    handlePost { baseEnv with stored := [sameRecord] }
      = (ApiResult.ok curGood [mapStored sameRecord], [sameRecord]) := by
  have hfwd := handlePost_ok_fwd { baseEnv with stored := [sameRecord] }
    "37875" goodFois goodDtl [] goodPopup rfl (by decide) rfl (by decide) rfl rfl rfl
  have hmv : hasMovedB ((([sameRecord].getLast?).map fun r => (r.lat, r.lng)))
      curGood.lat curGood.lng = false := by
    rw [show [sameRecord].getLast? = some sameRecord from rfl]
    exact notMoved_same
  rw [hfwd, mkCurrentData_good,
    show ({ baseEnv with stored := [sameRecord] } : Env).stored = [sameRecord] from rfl,
    show ({ baseEnv with stored := [sameRecord] } : Env).now = "t1" from rfl,
    buildSnapshot_notMoved _ _ _ _ _ hmv]
  rfl

/-- Full run on the malformed-coordinate telemetry: a 200 snapshot whose
current point has `NaN` coordinates. -/
lemma handlePost_nan :
    handlePost { baseEnv with fois := Except.ok nanFois }
      = (ApiResult.ok cdNaN [currentPoint cdNaN "t1"], [newStored "37875" cdNaN "t1"]) := by
  have hfwd := handlePost_ok_fwd { baseEnv with fois := Except.ok nanFois }
    "37875" nanFois nanDtl [] "Station: <b>NDLS</b>" rfl (by decide) rfl (by decide) rfl rfl rfl
  have hcd : mkCurrentData nanDtl "Station: <b>NDLS</b>" = cdNaN := by decide
  rw [hfwd, hcd,
    show ({ baseEnv with fois := Except.ok nanFois } : Env).stored = [] from rfl,
    show ({ baseEnv with fois := Except.ok nanFois } : Env).insertOk = true from rfl,
    show ({ baseEnv with fois := Except.ok nanFois } : Env).now = "t1" from rfl,
    buildSnapshot_nil]
  rfl

/-- Full run of the second, identical call after `handlePost_base`. -/
lemma handlePost_second :
    handlePost envSecond
      = (ApiResult.ok curGood [mapStored (newStored "37875" curGood "t1")],
         [newStored "37875" curGood "t1"]) := by
  have hfwd := handlePost_ok_fwd envSecond "37875" goodFois goodDtl [] goodPopup
    rfl (by decide) rfl (by decide) rfl rfl rfl
  have hmv : hasMovedB ((envSecond.stored.getLast?).map fun r => (r.lat, r.lng))
      curGood.lat curGood.lng = false := by
    rw [show envSecond.stored.getLast? = some (newStored "37875" curGood "t1") from rfl]
    exact hasMovedB_refl _ _
  rw [hfwd, mkCurrentData_good, buildSnapshot_notMoved _ _ _ _ _ hmv]
  rfl

/-! ### Claim theorems -/

/-- C5 (confirmed): the movement detector returns true whenever there is
no last known position; against a finite last position it returns true
exactly when either coordinate differs by strictly more than the
tolerance 1e-4 — so a delta of exactly 1e-4 is not movement — and in
particular a position compared with itself is never movement. -/
theorem C5_movement_detector : ∀ a b c d : ℚ,
    (∀ x y : JsNum, hasMovedB none x y = true)
    ∧ coordinateTolerance = 1 / 10000
    ∧ (hasMovedB (some (some a, some b)) (some c) (some d) = true ↔
        |a - c| > coordinateTolerance ∨ |b - d| > coordinateTolerance)
    ∧ hasMovedB (some (some a, some b)) (some (a + coordinateTolerance)) (some b) = false
    ∧ hasMovedB (some (some a, some b)) (some a) (some b) = false := by
  intro a b c d
  refine ⟨fun x y => rfl, rfl, ?_, ?_, hasMovedB_refl _ _⟩
  · simp [hasMovedB, jsSub, jsAbs, jsGtNum]
  · have hnn : (0 : ℚ) ≤ coordinateTolerance := by norm_num [coordinateTolerance]
    have h1 : a - (a + coordinateTolerance) = -coordinateTolerance := by ring
    have h2 : |a - (a + coordinateTolerance)| = coordinateTolerance := by
      rw [h1, abs_neg, abs_of_nonneg hnn]
    simp only [hasMovedB, jsSub, jsAbs, jsGtNum, h2, sub_self, abs_zero,
      Bool.or_eq_false_iff, decide_eq_false_iff_not, not_lt]
    exact ⟨le_refl _, hnn⟩

/-- C9 (confirmed): `parsePopupMsg` extracts the station, event and speed
sub-fields independently, each against its own pattern; a sub-field whose
pattern does not occur in the annotation yields the sentinel `"N/A"`, and
the parse as a whole is a total function — it never fails. -/
theorem C9_popup_extraction : ∀ html : String,
    ((parsePopupMsg html).station = (extract html "Station: <b>" "</b>").getD "N/A"
      ∧ (parsePopupMsg html).event = (extract html "Event: <b>" "</b>").getD "N/A"
      ∧ (parsePopupMsg html).speed = (extract html "Speed: <b>" "</b>").getD "N/A")
    ∧ (occursB "Station: <b>".toList html.toList = false →
        (parsePopupMsg html).station = "N/A")
    ∧ (occursB "Event: <b>".toList html.toList = false →
        (parsePopupMsg html).event = "N/A")
    ∧ (occursB "Speed: <b>".toList html.toList = false →
        (parsePopupMsg html).speed = "N/A") := by
  intro html
  refine ⟨⟨rfl, rfl, rfl⟩, fun h => ?_, fun h => ?_, fun h => ?_⟩ <;>
    simp [parsePopupMsg, extract_eq_none _ _ _ h]

/-- Witness for C9 at a concrete annotation that carries only a speed
segment: station and event fall back to the sentinel while speed is
still extracted. -/
theorem C9_witness :
    (parsePopupMsg "Speed: <b>50</b>").station = "N/A"
    ∧ (parsePopupMsg "Speed: <b>50</b>").event = "N/A"
    ∧ (parsePopupMsg "Speed: <b>50</b>").speed = "50" := by
  refine ⟨(C9_popup_extraction "Speed: <b>50</b>").2.1 (by decide),
    (C9_popup_extraction "Speed: <b>50</b>").2.2.1 (by decide), by decide⟩

/-- C1 counterexample: with an empty stored history, movement is
detected, and when the insert then fails neither push branch fires
(route.ts lines 116 and 125 both require conditions that fail), so the
handler returns a snapshot whose history is empty — length 0, not ≥ 1,
and not containing the current point. -/
theorem C1_counterexample :
    ({ baseEnv with insertOk := false } : Env).stored = []
    ∧ (handlePost { baseEnv with insertOk := false }).1 = ApiResult.ok curGood [] := by
  exact ⟨rfl, by rw [handlePost_base_noins]⟩

/-- C1 (amended): if the stored history listed for the asset is empty and
the store insert succeeds, the returned history is exactly the current
point, hence has length ≥ 1 and contains it.  (The counterexample forces
the added proviso that the insert succeeds.) -/
theorem C1_amended_snapshot_completeness (env : Env) (cur : TrackingData)
    (hist : List HistoryPoint)
    (h : (handlePost env).1 = ApiResult.ok cur hist)
    (hemp : env.stored = []) (hins : env.insertOk = true) :
    1 ≤ hist.length ∧ currentPoint cur env.now ∈ hist := by
  obtain ⟨lid, fd, d, rest, popup, _, _, _, _, _, _, _, _, hhist, _⟩ :=
    handlePost_ok_inv env cur hist h
  rw [hemp, hins, buildSnapshot_nil] at hhist
  simp only [if_true] at hhist
  subst hhist
  simp

/-- Witness for C1 (amended) at the baseline environment: empty store,
successful insert, history comes back as exactly the current point. -/
theorem C1_amended_witness :
    (handlePost baseEnv).1 = ApiResult.ok curGood [currentPoint curGood "t1"]
    ∧ 1 ≤ ([currentPoint curGood "t1"] : List HistoryPoint).length
    ∧ currentPoint curGood baseEnv.now ∈ ([currentPoint curGood "t1"] : List HistoryPoint) := by
  have h : (handlePost baseEnv).1 = ApiResult.ok curGood [currentPoint curGood "t1"] := by
    rw [handlePost_base]
  exact ⟨h, C1_amended_snapshot_completeness baseEnv curGood _ h rfl rfl⟩

/-- C2 counterexample: movement is detected against a far-away stored
record and the insert fails; the handler does return a success snapshot,
but its history is the stored trail alone — the current point is *not*
synthesized into it in-memory (route.ts line 116 requires
`newRecordSaved`). -/
theorem C2_counterexample :
    hasMovedB (some (farRecord.lat, farRecord.lng)) curGood.lat curGood.lng = true
    ∧ (handlePost { baseEnv with stored := [farRecord], insertOk := false }).1
        = ApiResult.ok curGood [mapStored farRecord]
    ∧ mapStored farRecord ≠ currentPoint curGood "t1" := by
  refine ⟨moved_far, by rw [handlePost_far_noins], fun heq => ?_⟩
  have hs := congrArg HistoryPoint.station heq
  rw [show (mapStored farRecord).station = "OLD" from rfl,
    show (currentPoint curGood "t1").station = "NDLS" from rfl] at hs
  exact absurd hs (by decide)

/-- C2 (amended): when movement is detected and the store insert fails,
the engine still returns a success snapshot (status 200, not an error),
but its history is the pre-insert stored history only — the current point
is not appended in-memory — and the store is unchanged. -/
theorem C2_amended_insert_failure (env : Env) (cur : TrackingData)
    (hist : List HistoryPoint)
    (h : (handlePost env).1 = ApiResult.ok cur hist)
    (hmv : hasMovedB ((env.stored.getLast?).map fun r => (r.lat, r.lng))
        cur.lat cur.lng = true)
    (hins : env.insertOk = false) :
    statusOf (handlePost env).1 = 200
    ∧ hist = env.stored.map mapStored
    ∧ (handlePost env).2 = env.stored := by
  obtain ⟨lid, fd, d, rest, popup, _, _, _, _, _, _, _, _, hhist, hstore⟩ :=
    handlePost_ok_inv env cur hist h
  rw [hins, buildSnapshot_moved_noins _ _ _ _ hmv] at hhist hstore
  exact ⟨by rw [h]; rfl, hhist, hstore⟩

/-- Witness for C2 (amended): far-away stored record, failing insert; the
call still succeeds and the history equals the mapped stored trail. -/
theorem C2_amended_witness :
    statusOf (handlePost { baseEnv with stored := [farRecord], insertOk := false }).1 = 200
    ∧ ([mapStored farRecord] : List HistoryPoint)
        = ({ baseEnv with stored := [farRecord], insertOk := false } : Env).stored.map mapStored
    ∧ (handlePost { baseEnv with stored := [farRecord], insertOk := false }).2
        = ({ baseEnv with stored := [farRecord], insertOk := false } : Env).stored := by
  have h : (handlePost { baseEnv with stored := [farRecord], insertOk := false }).1
      = ApiResult.ok curGood [mapStored farRecord] := by rw [handlePost_far_noins]
  have hmv : hasMovedB
      ((({ baseEnv with stored := [farRecord], insertOk := false } : Env).stored.getLast?).map
        fun r => (r.lat, r.lng)) curGood.lat curGood.lng = true := by
    rw [show ({ baseEnv with stored := [farRecord], insertOk := false } : Env).stored.getLast?
      = some farRecord from rfl]
    exact moved_far
  exact C2_amended_insert_failure _ curGood _ h hmv rfl

/-- C3 counterexample: a payload whose latitude string is non-numeric and
whose longitude field is absent does not fail the poll — `parseFloat`
yields `NaN` and the handler returns a 200 snapshot built around a
position record with `NaN` coordinates. -/
theorem C3_counterexample :
    (handlePost { baseEnv with fois := Except.ok nanFois }).1
      = ApiResult.ok cdNaN [currentPoint cdNaN "t1"]
    ∧ cdNaN.lat = none ∧ cdNaN.lng = none := by
  exact ⟨by rw [handlePost_nan], rfl, rfl⟩

/-- C3 (amended): for a payload whose coordinate fields are absent or
non-numeric (`parseFloat` yields `NaN`), the parse step does not fail the
poll: the handler still returns a 200 snapshot whose current position
record carries `NaN` coordinates.  (`jsParseFloat none = none` is the
absent-field case.) -/
theorem C3_amended_nan_positions (env : Env) (lid : String) (fd : FoisData)
    (d : FoisDetails) (rest : List FoisDetails) (popup : String)
    (hb : env.bodyLocoId = Except.ok (some lid)) (hl : (lid == "") = false)
    (hf : env.fois = Except.ok fd) (hr : (fd.RowCont == "0") = false)
    (hdt : fd.LocoDtls = some (d :: rest)) (hpm : d.PopUpMsg = some popup)
    (hdb : env.dbOk = true) (hnan : jsParseFloat d.Lttd = none) :
    statusOf (handlePost env).1 = 200
    ∧ (mkCurrentData d popup).lat = none
    ∧ jsParseFloat none = none
    ∧ ∃ hist, (handlePost env).1 = ApiResult.ok (mkCurrentData d popup) hist := by
  have hfwd := handlePost_ok_fwd env lid fd d rest popup hb hl hf hr hdt hpm hdb
  refine ⟨by rw [hfwd]; rfl, by simp [mkCurrentData, hnan], rfl, _, by rw [hfwd]⟩

/-- Witness for C3 (amended) at the `nanDtl` payload. -/
theorem C3_amended_witness :
    statusOf (handlePost { baseEnv with fois := Except.ok nanFois }).1 = 200
    ∧ (mkCurrentData nanDtl "Station: <b>NDLS</b>").lat = none := by
  have h := C3_amended_nan_positions
    { baseEnv with fois := Except.ok nanFois }
    "37875" nanFois nanDtl [] "Station: <b>NDLS</b>"
    rfl (by decide) rfl (by decide) rfl rfl rfl rfl
  exact ⟨h.1, h.2.1⟩

/-- C6 counterexample: the stored history is the single record
`sameRecord`, which sits at exactly the current coordinates, so no
movement is detected; the returned history is the stored trail alone, but
its last element *does* contain the current position — its `lat`/`lng`
equal the current point's. -/
theorem C6_counterexample :
    ({ baseEnv with stored := [sameRecord] } : Env).stored ≠ []
    ∧ hasMovedB (some (sameRecord.lat, sameRecord.lng)) curGood.lat curGood.lng = false
    ∧ (handlePost { baseEnv with stored := [sameRecord] }).1
        = ApiResult.ok curGood [mapStored sameRecord]
    ∧ (mapStored sameRecord).lat = curGood.lat
    ∧ (mapStored sameRecord).lng = curGood.lng := by
  refine ⟨by simp, notMoved_same, by rw [handlePost_same], rfl, rfl⟩

/-- C6 (amended): when the stored history is non-empty and no movement is
detected, the current point is not appended: the returned history is
exactly the mapped stored trail, of the same length as the listed
records, and the store is untouched.  The last element is the last stored
record — its coordinates may coincide with the current position (exactly
when the asset has not moved at all), so "does not contain the current
position" holds only when the stored last position differs from the
current one. -/
theorem C6_amended_no_append (env : Env) (cur : TrackingData)
    (hist : List HistoryPoint)
    (h : (handlePost env).1 = ApiResult.ok cur hist)
    (hmv : hasMovedB ((env.stored.getLast?).map fun r => (r.lat, r.lng))
        cur.lat cur.lng = false) :
    env.stored ≠ []
    ∧ hist = env.stored.map mapStored
    ∧ hist.length = env.stored.length
    ∧ (handlePost env).2 = env.stored := by
  obtain ⟨lid, fd, d, rest, popup, _, _, _, _, _, _, _, _, hhist, hstore⟩ :=
    handlePost_ok_inv env cur hist h
  rw [buildSnapshot_notMoved _ _ _ _ _ hmv] at hhist hstore
  refine ⟨?_, hhist, by rw [hhist, List.length_map], hstore⟩
  intro hnil
  rw [hnil] at hmv
  simp [hasMovedB] at hmv

/-- Witness for C6 (amended) at the `sameRecord` environment. -/
theorem C6_amended_witness :
    ({ baseEnv with stored := [sameRecord] } : Env).stored ≠ []
    ∧ ([mapStored sameRecord] : List HistoryPoint)
        = ({ baseEnv with stored := [sameRecord] } : Env).stored.map mapStored
    ∧ ([mapStored sameRecord] : List HistoryPoint).length
        = ({ baseEnv with stored := [sameRecord] } : Env).stored.length
    ∧ (handlePost { baseEnv with stored := [sameRecord] }).2
        = ({ baseEnv with stored := [sameRecord] } : Env).stored := by
  have h : (handlePost { baseEnv with stored := [sameRecord] }).1
      = ApiResult.ok curGood [mapStored sameRecord] := by rw [handlePost_same]
  have hmv : hasMovedB
      ((({ baseEnv with stored := [sameRecord] } : Env).stored.getLast?).map
        fun r => (r.lat, r.lng)) curGood.lat curGood.lng = false := by
    rw [show ({ baseEnv with stored := [sameRecord] } : Env).stored.getLast?
      = some sameRecord from rfl]
    exact notMoved_same
  exact C6_amended_no_append _ curGood _ h hmv

/-- C10 (confirmed): on a successful call with an empty stored history the
movement check necessarily fires (there is no last record), so the current
point ends up in the returned history exactly when the insert succeeded;
and the `else if` branch of route.ts line 125 — append-on-empty-history
without movement — is unreachable, because an empty mapped history forces
the movement check to be true. -/
theorem C10_empty_history_moved (env : Env) (cur : TrackingData)
    (hist : List HistoryPoint)
    (h : (handlePost env).1 = ApiResult.ok cur hist)
    (hemp : env.stored = []) :
    hasMovedB ((env.stored.getLast?).map fun r => (r.lat, r.lng)) cur.lat cur.lng = true
    ∧ (env.insertOk = true → hist = [currentPoint cur env.now])
    ∧ (env.insertOk = false → hist = [])
    ∧ ∀ (cd : TrackingData) (stored : List StoredRecord),
        (stored.map mapStored).length = 0 →
        hasMovedB ((stored.getLast?).map fun r => (r.lat, r.lng)) cd.lat cd.lng = true := by
  obtain ⟨lid, fd, d, rest, popup, _, _, _, _, _, _, _, _, hhist, _⟩ :=
    handlePost_ok_inv env cur hist h
  rw [hemp, buildSnapshot_nil] at hhist
  refine ⟨by rw [hemp]; rfl, fun hins => ?_, fun hins => ?_, fun cd stored hlen => ?_⟩
  · rw [hins] at hhist
    simpa using hhist
  · rw [hins] at hhist
    simpa using hhist
  · have hnil : stored = [] := by simpa [List.length_eq_zero] using hlen
    rw [hnil]
    rfl

/-- Witness for C10 at the baseline environment (empty store, insert
succeeds) and the failing-insert variant. -/
theorem C10_witness :
    hasMovedB ((baseEnv.stored.getLast?).map fun r => (r.lat, r.lng))
        curGood.lat curGood.lng = true
    ∧ ([currentPoint curGood "t1"] : List HistoryPoint) = [currentPoint curGood baseEnv.now]
    ∧ hasMovedB ((([] : List StoredRecord).getLast?).map fun r => (r.lat, r.lng))
        curGood.lat curGood.lng = true := by
  have h : (handlePost baseEnv).1 = ApiResult.ok curGood [currentPoint curGood "t1"] := by
    rw [handlePost_base]
  have hc := C10_empty_history_moved baseEnv curGood _ h rfl
  exact ⟨hc.1, hc.2.1 rfl, hc.2.2.2 curGood [] rfl⟩

/-- C7 counterexample: two consecutive calls with identical source
telemetry can grow the stored history when the first call's insert fails
and the second succeeds — call 1 (failing store) leaves the store empty,
the identical call 2 detects movement again, retries the insert, and the
stored history grows from 0 to 1 records. -/
theorem C7_counterexample :
    ({ baseEnv with insertOk := false } : Env).bodyLocoId = baseEnv.bodyLocoId
    ∧ ({ baseEnv with insertOk := false } : Env).fois = baseEnv.fois
    ∧ (handlePost { baseEnv with insertOk := false }).2 = []
    ∧ baseEnv.stored = (handlePost { baseEnv with insertOk := false }).2
    ∧ (handlePost baseEnv).2.length = 1 := by
  refine ⟨rfl, rfl, ?_, ?_, ?_⟩
  · rw [handlePost_base_noins]
  · rw [handlePost_base_noins]
    rfl
  · rw [handlePost_base]
    rfl

/-- C7 (amended): provided the store accepted the first call's insert (if
one was attempted), a second call with identical request body, identical
telemetry and the store state the first call left behind does not change
the stored history length; and unconditionally, every single call grows
the store by at most one record. -/
theorem C7_amended_idempotence :
    (∀ env1 env2 : Env,
      env2.bodyLocoId = env1.bodyLocoId → env2.fois = env1.fois →
      env2.dbOk = env1.dbOk → env2.stored = (handlePost env1).2 →
      env1.insertOk = true →
      (handlePost env2).2.length = (handlePost env1).2.length)
    ∧ ∀ env : Env, (handlePost env).2.length ≤ env.stored.length + 1 := by
  constructor
  · intro env1 env2 hb hf hdb hst hins
    rcases hsp : snapshotPath env1 with _ | _
    · have h1 := not_snapshotPath_store env1 hsp
      have h2 := not_snapshotPath_store env2
        (by rw [snapshotPath_congr env1 env2 hb hf hdb]; exact hsp)
      rw [h1, h2, hst, h1]
    · obtain ⟨lid, fd, d, rest, popup, hb1, hl, hf1, hr, hdt, hpm, hdb1⟩ :=
        snapshotPath_shape env1 hsp
      have hfwd1 := handlePost_ok_fwd env1 lid fd d rest popup hb1 hl hf1 hr hdt hpm hdb1
      have hfwd2 := handlePost_ok_fwd env2 lid fd d rest popup
        (by rw [hb, hb1]) hl (by rw [hf, hf1]) hr hdt hpm (by rw [hdb, hdb1])
      rcases hmv : hasMovedB ((env1.stored.getLast?).map fun r => (r.lat, r.lng))
          (mkCurrentData d popup).lat (mkCurrentData d popup).lng with _ | _
      · have e1 : (handlePost env1).2 = env1.stored := by
          rw [hfwd1, buildSnapshot_notMoved _ _ _ _ _ hmv]
        have hmv2 : hasMovedB ((env2.stored.getLast?).map fun r => (r.lat, r.lng))
            (mkCurrentData d popup).lat (mkCurrentData d popup).lng = false := by
          rw [hst, e1]
          exact hmv
        have e2 : (handlePost env2).2 = env2.stored := by
          rw [hfwd2, buildSnapshot_notMoved _ _ _ _ _ hmv2]
        rw [e2, hst]
      · have e1 : (handlePost env1).2
            = env1.stored ++ [newStored lid (mkCurrentData d popup) env1.now] := by
          rw [hfwd1, hins, buildSnapshot_moved_ins _ _ _ _ hmv]
        have hmv2 : hasMovedB ((env2.stored.getLast?).map fun r => (r.lat, r.lng))
            (mkCurrentData d popup).lat (mkCurrentData d popup).lng = false := by
          rw [hst, e1, List.getLast?_concat]
          exact hasMovedB_refl _ _
        have e2 : (handlePost env2).2 = env2.stored := by
          rw [hfwd2, buildSnapshot_notMoved _ _ _ _ _ hmv2]
        rw [e2, hst]
  · intro env
    rcases handlePost_store_cases env with h | ⟨lid, cd, h⟩
    · rw [h]
      exact Nat.le_succ_of_le (Nat.le_refl _)
    · rw [h, List.length_append]
      simp

/-- Witness for C7 (amended): the second identical call after the
baseline run leaves the stored history length at 1, and the baseline run
itself adds at most one record. -/
theorem C7_amended_witness :
    (handlePost envSecond).2.length = (handlePost baseEnv).2.length
    ∧ (handlePost baseEnv).2.length ≤ baseEnv.stored.length + 1 := by
  refine ⟨C7_amended_idempotence.1 baseEnv envSecond rfl rfl rfl ?_ rfl,
    C7_amended_idempotence.2 baseEnv⟩
  rw [handlePost_base]
  rfl

/-- C8 (confirmed): the handler returns 400 when the asset id is missing,
404 when the telemetry source reports zero rows — with the response and
the store independent of every store-related input, and the store left
untouched, since the 404 fires before any store interaction — 500 when
the telemetry fetch fails, when the request body cannot be read, or when
the database connection fails, and otherwise a snapshot. -/
theorem C8_status_codes : ∀ env : Env,
    (env.bodyLocoId = Except.ok none → statusOf (handlePost env).1 = 400)
    ∧ (∀ e, env.bodyLocoId = Except.error e → statusOf (handlePost env).1 = 500)
    ∧ (∀ lid fd, env.bodyLocoId = Except.ok (some lid) → (lid == "") = false →
        env.fois = Except.ok fd → (fd.RowCont == "0") = true →
        handlePost env = (ApiResult.err 404 "Loco not found or no data available.", env.stored)
        ∧ ∀ st ins db, (handlePost { env with stored := st, insertOk := ins, dbOk := db }).1
            = (handlePost env).1)
    ∧ (∀ lid e, env.bodyLocoId = Except.ok (some lid) → (lid == "") = false →
        env.fois = Except.error e → statusOf (handlePost env).1 = 500)
    ∧ (∀ lid fd d rest popup, env.bodyLocoId = Except.ok (some lid) → (lid == "") = false →
        env.fois = Except.ok fd → (fd.RowCont == "0") = false →
        fd.LocoDtls = some (d :: rest) → d.PopUpMsg = some popup → env.dbOk = false →
        statusOf (handlePost env).1 = 500)
    ∧ (∀ lid fd d rest popup, env.bodyLocoId = Except.ok (some lid) → (lid == "") = false →
        env.fois = Except.ok fd → (fd.RowCont == "0") = false →
        fd.LocoDtls = some (d :: rest) → d.PopUpMsg = some popup → env.dbOk = true →
        (handlePost env).1 = ApiResult.ok (mkCurrentData d popup)
          (buildSnapshot lid (mkCurrentData d popup) env.stored env.insertOk env.now).1) := by
  intro env
  refine ⟨fun hb => ?_, fun e hb => ?_, fun lid fd hb hl hf hr => ⟨?_, fun st ins db => ?_⟩,
    fun lid e hb hl hf => ?_, fun lid fd d rest popup hb hl hf hr hdt hpm hdb => ?_,
    fun lid fd d rest popup hb hl hf hr hdt hpm hdb => ?_⟩
  · simp [handlePost, hb, statusOf]
  · simp [handlePost, hb, statusOf]
  · simp [handlePost, hb, hl, hf, hr]
  · simp [handlePost, hb, hl, hf, hr]
  · simp [handlePost, hb, hl, hf, statusOf]
  · simp [handlePost, hb, hl, hf, hr, hdt, hpm, hdb, statusOf]
  · rw [handlePost_ok_fwd env lid fd d rest popup hb hl hf hr hdt hpm hdb]

/-- Witness for C8 covering a missing id (400), zero rows (404, store
untouched and the i/o independent of every store-related input), a failed
telemetry fetch (500), and the happy path (snapshot). -/
theorem C8_witness :
    statusOf (handlePost { baseEnv with bodyLocoId := Except.ok none }).1 = 400
    ∧ handlePost { baseEnv with fois := Except.ok { RowCont := "0", LocoDtls := some [goodDtl] } }
        = (ApiResult.err 404 "Loco not found or no data available.", [])
    ∧ (handlePost { ({ baseEnv with
          fois := Except.ok { RowCont := "0", LocoDtls := some [goodDtl] } } : Env) with
            stored := [farRecord], insertOk := false, dbOk := false }).1
        = (handlePost { baseEnv with
            fois := Except.ok { RowCont := "0", LocoDtls := some [goodDtl] } }).1
    ∧ statusOf (handlePost { baseEnv with fois := Except.error "FOIS API failed: 502" }).1 = 500
    ∧ (handlePost baseEnv).1 = ApiResult.ok (mkCurrentData goodDtl goodPopup)
        (buildSnapshot "37875" (mkCurrentData goodDtl goodPopup)
          baseEnv.stored baseEnv.insertOk baseEnv.now).1 := by
  refine ⟨(C8_status_codes _).1 rfl, ?_, ?_, ?_, ?_⟩
  · exact ((C8_status_codes _).2.2.1 "37875"
      { RowCont := "0", LocoDtls := some [goodDtl] } rfl (by decide) rfl (by decide)).1
  · exact ((C8_status_codes _).2.2.1 "37875"
      { RowCont := "0", LocoDtls := some [goodDtl] } rfl (by decide) rfl (by decide)).2
      [farRecord] false false
  · exact (C8_status_codes _).2.2.2.1 "37875" "FOIS API failed: 502" rfl (by decide) rfl
  · exact (C8_status_codes _).2.2.2.2.2 "37875" goodFois goodDtl [] goodPopup
      rfl (by decide) rfl (by decide) rfl rfl rfl

/-- C4 counterexample: `stopTrace` starts tracking, lets the first poll
succeed (current data `td1`), installs the interval, fires one tick —
putting a poll in flight — and then presses stop.  After the stop the
session is no longer tracking and the poll is still pending; when that
poll resolves it still overwrites the session's data with `td2`
(`fetchData` has no cancellation guard), and a tick delivered between the
stop and the next effect run still starts a new poll (the interval is
cleared only by the asynchronous effect cleanup). -/
theorem C4_counterexample :
    (Session.runEvents Session.initState stopTrace).isTracking = false
    ∧ (Session.runEvents Session.initState stopTrace).currentData = some td1
    ∧ (Session.runEvents Session.initState stopTrace).pending = [true]
    ∧ (Session.runEvents Session.initState
        (stopTrace ++ [Session.Ev.resolve 0 (Session.FetchOutcome.success td2 [])])).currentData
        = some td2
    ∧ (Session.runEvents Session.initState
        (stopTrace ++ [Session.Ev.tick])).pending = [true, true] := by
  refine ⟨rfl, rfl, rfl, rfl, rfl⟩

/-- C4 (amended): stop only clears the tracking flag — it does not cancel
an in-flight poll, whose successful result is still applied to the
session state when it resolves; a tick is a no-op only once the interval
is uninstalled, which happens when the polling effect's cleanup runs
after the stop, not synchronously at the stop itself. -/
theorem C4_amended_stop_behaviour (s : Session.SessionState)
    (ht : s.isTracking = true) :
    (Session.step s Session.Ev.submit).isTracking = false
    ∧ (Session.step s Session.Ev.submit).pending = s.pending
    ∧ (Session.pollingEffect (Session.step s Session.Ev.submit)).intervalCapt = none
    ∧ (∀ s' : Session.SessionState, s'.intervalCapt = none →
        Session.step s' Session.Ev.tick = s')
    ∧ ∀ (capt : Bool) (cur : TrackingData) (hist : List HistoryPoint),
        s.pending.get? 0 = some capt →
        (Session.fetchResolve { s with isTracking := false } 0
          (Session.FetchOutcome.success cur hist)).currentData = some cur := by
  refine ⟨?_, ?_, ?_, ?_, ?_⟩
  · simp [Session.step, Session.handleFormSubmit, ht]
  · simp [Session.step, Session.handleFormSubmit, ht]
  · simp [Session.step, Session.handleFormSubmit, Session.pollingEffect, ht]
  · intro s' h
    simp [Session.step, Session.tickFire, h]
  · intro capt cur hist hp
    simp only [Session.fetchResolve]
    rw [show ({ s with isTracking := false } : Session.SessionState).pending
      = s.pending from rfl, hp]

/-- Witness for C4 (amended) at a concrete tracking state with one poll
in flight. -/
theorem C4_amended_witness :
    (Session.step trackingState Session.Ev.submit).isTracking = false
    ∧ (Session.step trackingState Session.Ev.submit).pending = [true]
    ∧ (Session.pollingEffect (Session.step trackingState Session.Ev.submit)).intervalCapt = none
    ∧ (Session.fetchResolve { trackingState with isTracking := false } 0
        (Session.FetchOutcome.success td2 [])).currentData = some td2 := by
  have h := C4_amended_stop_behaviour trackingState rfl
  exact ⟨h.1, h.2.1, h.2.2.1, h.2.2.2.2 true td2 [] rfl⟩

end Fois
